import Mathlib

/-!
Verification of the weather-webhook request handler (multi-day variant,
file api/weather.js of the repository).  The JavaScript pipeline is
shallowly embedded: JS numbers that matter here are modelled as rationals
(NaN excluded), `Math.round` as floor of x + 1/2 (JS rounds halves toward
positive infinity), absent-or-falsy record fields as `Option` values, and
calendar dates as whole epoch-day numbers (the code compares dates only by
calendar-day equality and adds whole days, so a date is its day count; the
`Math.ceil` around millisecond differences is the identity on whole days).
-/

namespace Weather

/-- JS Math.round: floor of x + 1/2 (halves round toward positive infinity).
Stated with the executable Rat.floor so that concrete runs evaluate. -/
def jsRound (q : ℚ) : ℤ := Rat.floor (q + 1/2)

/-- Numeric JS truthiness fallback: `x || d` where x is an optional number.
A present value 0 is falsy in JS and falls through to the default. -/
def jsOrNum (x : Option ℚ) (d : ℚ) : ℚ :=
  match x with
  | some v => if v = 0 then d else v
  | none => d

/-- String JS truthiness fallback: `x || d` where x is an optional string.
A present empty string is falsy in JS and falls through to the default. -/
def jsOrStr (x : Option String) (d : String) : String :=
  match x with
  | some v => if v = "" then d else v
  | none => d

/-- JS truthiness of an optional number (undefined and 0 are falsy). -/
def numTruthy : Option ℚ → Bool
  | some v => decide (v ≠ 0)
  | none => false

/-- JS truthiness of an optional string (undefined and the empty string are falsy). -/
def strTruthy : Option String → Bool
  | some s => decide (s ≠ "")
  | none => false

/-- Rendering of an optional value inside a JS template literal:
an undefined value prints as the text undefined. -/
def jsRender : Option String → String
  | some s => s
  | none => "undefined"

/-- Substring test on character lists: pat occurs contiguously in l. -/
def containsSub : List Char → List Char → Bool
  | pat, [] => pat.isEmpty
  | pat, c :: t => pat.isPrefixOf (c :: t) || containsSub pat t

/-- JS String.prototype.includes: the pattern occurs as a substring. -/
def strIncludes (s pat : String) : Bool := containsSub pat.toList s.toList

/-- JS String.prototype.toLowerCase restricted to ASCII, which is all the
code compares against. -/
def lowerStr (s : String) : String := String.mk (s.toList.map Char.toLower)

/-- First-seen-order deduplication with an accumulator of already seen
elements; models iteration order of a JS Set built from an array. -/
def jsDedupAux (seen : List String) : List String → List String
  | [] => []
  | x :: xs => if x ∈ seen then jsDedupAux seen xs else x :: jsDedupAux (x :: seen) xs

/-- Models `[...new Set(items)]`: deduplicate keeping the first occurrence
of each element, preserving first-seen order. -/
def jsDedup (l : List String) : List String := jsDedupAux [] l

/-- The temperature sub-record of a raw forecast entry
(`dayForecast.temperature` or `dayForecast.temp`); every field optional. -/
structure TempRec where
  high : Option ℚ
  low : Option ℚ
  max : Option ℚ
  min : Option ℚ
deriving DecidableEq

/-- The condition sub-record of a raw forecast entry
(`dayForecast.condition` or first element of `dayForecast.weather`). -/
structure CondRec where
  description : Option String
  main : Option String
  icon_url : Option String
  icon : Option String
deriving DecidableEq

/-- The precipitation sub-record of a raw forecast entry
(`dayForecast.precipitation` or `dayForecast.rain`). -/
structure PrecipRec where
  probability : Option ℚ
  chance : Option ℚ
deriving DecidableEq

/-- One raw forecast entry from the provider payload.  Dates are epoch-day
numbers; a `none` date covers an absent or unparsable date string.
`weather0` is the optional first element of the `weather` array. -/
structure RawEntry where
  date : Option ℤ
  time : Option ℤ
  temperature : Option TempRec
  temp : Option TempRec
  condition : Option CondRec
  weather0 : Option CondRec
  precipitation : Option PrecipRec
  rain : Option PrecipRec
deriving DecidableEq

/-- Empty JS object standing in for `|| \x7b\x7d` on the temperature record. -/
def TempRec.empty : TempRec := ⟨none, none, none, none⟩

/-- Empty JS object standing in for `|| \x7b\x7d` on the condition record. -/
def CondRec.empty : CondRec := ⟨none, none, none, none⟩

/-- Empty JS object standing in for `|| \x7b\x7d` on the precipitation record. -/
def PrecipRec.empty : PrecipRec := ⟨none, none⟩

/-- The simplifyCondition function: case-insensitive keyword matching
against a fixed ordered rule table, first matching rule wins, defaulting
to Partly Cloudy. -/
def simplifyCondition (condition : String) : String :=
  let lower := lowerStr condition
  if strIncludes lower "rain" || strIncludes lower "drizzle" || strIncludes lower "shower" then
    "Rainy"
  else if strIncludes lower "snow" || strIncludes lower "sleet" || strIncludes lower "ice" then
    "Snow"
  else if strIncludes lower "thunder" || strIncludes lower "storm" then
    "Stormy"
  else if strIncludes lower "cloud" || strIncludes lower "overcast" then
    "Cloudy"
  else if strIncludes lower "clear" || strIncludes lower "sunny" then
    "Sunny"
  else if strIncludes lower "partly" || strIncludes lower "mostly" then
    "Partly Cloudy"
  else if strIncludes lower "fog" || strIncludes lower "mist" || strIncludes lower "haze" then
    "Foggy"
  else
    "Partly Cloudy"

/-- Effective high temperature before rounding: `temp.high || temp.max || 75`. -/
def effHighR (t : TempRec) : ℚ := jsOrNum t.high (jsOrNum t.max 75)

/-- Effective low temperature before rounding: `temp.low || temp.min || 60`. -/
def effLowR (t : TempRec) : ℚ := jsOrNum t.low (jsOrNum t.min 60)

/-- Effective precipitation probability: `precip.probability || precip.chance || 0`. -/
def effPrecipR (p : PrecipRec) : ℚ := jsOrNum p.probability (jsOrNum p.chance 0)

/-- Rounded high temperature of a temperature record. -/
def resolveHighR (t : TempRec) : ℤ := jsRound (effHighR t)

/-- Rounded low temperature of a temperature record. -/
def resolveLowR (t : TempRec) : ℤ := jsRound (effLowR t)

/-- Rounded precipitation chance of a precipitation record:
`Math.round((precip.probability || precip.chance || 0) * 100)`. -/
def resolvePrecipR (p : PrecipRec) : ℤ := jsRound (effPrecipR p * 100)

/-- Temperature record selected from a raw entry:
`dayForecast.temperature || dayForecast.temp || \x7b\x7d`. -/
def tempRecOf (e : RawEntry) : TempRec := (e.temperature.orElse fun _ => e.temp).getD TempRec.empty

/-- Condition record selected from a raw entry:
`dayForecast.condition || dayForecast.weather?.[0] || \x7b\x7d`. -/
def condRecOf (e : RawEntry) : CondRec := (e.condition.orElse fun _ => e.weather0).getD CondRec.empty

/-- Precipitation record selected from a raw entry:
`dayForecast.precipitation || dayForecast.rain || \x7b\x7d`. -/
def precipRecOf (e : RawEntry) : PrecipRec :=
  (e.precipitation.orElse fun _ => e.rain).getD PrecipRec.empty

/-- The tempHigh value computed for a raw entry. -/
def resolveTempHigh (e : RawEntry) : ℤ := resolveHighR (tempRecOf e)

/-- The tempLow value computed for a raw entry. -/
def resolveTempLow (e : RawEntry) : ℤ := resolveLowR (tempRecOf e)

/-- The precipChance value computed for a raw entry. -/
def resolvePrecipChance (e : RawEntry) : ℤ := resolvePrecipR (precipRecOf e)

/-- The condition display text of a raw entry:
`condition.description || condition.main || "Partly Cloudy"`. -/
def resolveCondText (e : RawEntry) : String :=
  jsOrStr (condRecOf e).description (jsOrStr (condRecOf e).main "Partly Cloudy")

/-- The icon url of a raw entry: `condition.icon_url || condition.icon || ""`. -/
def resolveIconUrl (e : RawEntry) : String :=
  jsOrStr (condRecOf e).icon_url (jsOrStr (condRecOf e).icon "")

/-- The date used for calendar matching: `new Date(day.date || day.time)`;
none models an invalid date that matches no requested day. -/
def entryDate (e : RawEntry) : Option ℤ := e.date.orElse fun _ => e.time

/-- Long weekday names indexed from Sunday; epoch day 0 (1970-01-01) is a Thursday. -/
def dayNames : List String :=
  ["Sunday", "Monday", "Tuesday", "Wednesday", "Thursday", "Friday", "Saturday"]

/-- Short weekday names indexed from Sunday. -/
def dayShortNames : List String := ["Sun", "Mon", "Tue", "Wed", "Thu", "Fri", "Sat"]

/-- Weekday index 0..6 (0 = Sunday) of an epoch day. -/
def weekdayIdx (d : ℤ) : ℕ := ((d + 4) % 7).toNat

/-- Long weekday name of an epoch day, as toLocaleDateString with long weekday. -/
def dayNameOf (d : ℤ) : String := dayNames.getD (weekdayIdx d) ""

/-- Short weekday name of an epoch day, as toLocaleDateString with short weekday. -/
def dayShortOf (d : ℤ) : String := dayShortNames.getD (weekdayIdx d) ""

/-- Gregorian civil date (year, month, day) of an epoch day number
(standard days-to-civil conversion with floor division). -/
def civilOf (z : ℤ) : ℤ × ℤ × ℤ :=
  let z2 := z + 719468
  let era := Int.fdiv z2 146097
  let doe := z2 - era * 146097
  let yoe := Int.fdiv (doe - Int.fdiv doe 1460 + Int.fdiv doe 36524 - Int.fdiv doe 146096) 365
  let y := yoe + era * 400
  let doy := doe - (365 * yoe + Int.fdiv yoe 4 - Int.fdiv yoe 100)
  let mp := Int.fdiv (5 * doy + 2) 153
  let dd := doy - Int.fdiv (153 * mp + 2) 5 + 1
  let m := mp + (if mp < 10 then 3 else -9)
  (if m ≤ 2 then y + 1 else y, m, dd)

/-- Short month names indexed from January = 1. -/
def monthShortNames : List String :=
  ["Jan", "Feb", "Mar", "Apr", "May", "Jun", "Jul", "Aug", "Sep", "Oct", "Nov", "Dec"]

/-- The month-day label, as toLocaleDateString with short month and numeric day. -/
def monthDayOf (d : ℤ) : String :=
  let c := civilOf d
  monthShortNames.getD (c.2.1.toNat - 1) "" ++ " " ++ toString c.2.2

/-- Two-digit zero padding for ISO date components. -/
def pad2 (n : ℤ) : String := if n < 10 then "0" ++ toString n else toString n

/-- ISO calendar-date string of an epoch day, as `toISOString().split("T")[0]`. -/
def isoDate (d : ℤ) : String :=
  let c := civilOf d
  toString c.1 ++ "-" ++ pad2 c.2.1 ++ "-" ++ pad2 c.2.2

/-- One normalized per-day record pushed onto dailyForecasts. -/
structure DailyForecast where
  date : String
  day_name : String
  day_short : String
  month_day : String
  is_checkin : Bool
  is_checkout : Bool
  temp_high : ℤ
  temp_low : ℤ
  condition : String
  condition_simple : String
  precipitation_chance : ℤ
  icon_url : String
deriving DecidableEq

/-- The record pushed for loop index i when a matching raw entry was found. -/
def mkDailyForecast (i : ℕ) (daysToShow : ℤ) (currentDate : ℤ) (e : RawEntry) : DailyForecast :=
  { date := isoDate currentDate
    day_name := dayNameOf currentDate
    day_short := dayShortOf currentDate
    month_day := monthDayOf currentDate
    is_checkin := decide (i = 0)
    is_checkout := decide ((i : ℤ) = daysToShow - 1)
    temp_high := resolveTempHigh e
    temp_low := resolveTempLow e
    condition := resolveCondText e
    condition_simple := simplifyCondition (resolveCondText e)
    precipitation_chance := resolvePrecipChance e
    icon_url := resolveIconUrl e }

/-- The daily-forecast loop: for each of daysToShow days starting at check-in,
find the raw entry whose date equals that calendar day and push its
normalized record; days without a match are skipped. -/
def buildDailyForecasts (checkin daysToShow : ℤ) (entries : List RawEntry) : List DailyForecast :=
  (List.range daysToShow.toNat).filterMap fun (i : ℕ) =>
    (entries.find? fun e => entryDate e == some (checkin + (i : ℤ))).map
      (mkDailyForecast i daysToShow (checkin + (i : ℤ)))

/-- The rainy-day count: days whose precipitation chance exceeds 40. -/
def rainyDays (dfs : List DailyForecast) : ℕ :=
  (dfs.filter fun d => decide (d.precipitation_chance > 40)).length

/-- The candidate packing items accumulated by the independent threshold rules
of generatePackingList, in push order. -/
def packingItems (maxHigh minLow avgPrecip : ℤ) (forecasts : List DailyForecast) : List String :=
  (if maxHigh > 85 then
    ["Light, breathable clothing", "Sunscreen and sunglasses", "Hat for sun protection"]
  else if maxHigh > 75 then ["Summer clothing", "Sunscreen"]
  else if maxHigh > 65 then ["Light layers"]
  else if maxHigh < 60 then ["Warm clothing", "Jacket or coat"]
  else [])
  ++ (if minLow < 60 then ["Warm layers for evenings"] else [])
  ++ (if maxHigh - minLow > 25 then ["Versatile layers for temperature changes"] else [])
  ++ (if avgPrecip > 60 then ["Rain jacket", "Waterproof shoes", "Umbrella"]
      else if avgPrecip > 30 then ["Rain jacket or umbrella"] else [])
  ++ (if forecasts.any fun f => f.condition_simple == "Snow" then
        ["Winter boots", "Warm winter coat"] else [])

/-- generatePackingList: accumulate candidates, deduplicate in first-seen
order, keep at most five. -/
def generatePackingList (maxHigh minLow avgPrecip : ℤ) (forecasts : List DailyForecast) :
    List String :=
  (jsDedup (packingItems maxHigh minLow avgPrecip forecasts)).take 5

/-- generateSummary: one sentence naming night count, city, a qualitative
clause and the average temperature range.  An absent city renders as the
text undefined inside the JS template literal. -/
def generateSummary (forecasts : List DailyForecast) (avgHigh avgLow avgPrecip nights : ℤ)
    (city : Option String) : String :=
  let uniqueConditions := jsDedup (forecasts.map fun f => f.condition_simple)
  let qual :=
    if uniqueConditions.length = 1 then lowerStr (uniqueConditions.headD "")
    else if avgPrecip > 50 then "mostly rainy"
    else if avgPrecip > 30 then "mixed with some rain"
    else "pleasant"
  "The weather for your " ++ toString nights ++ "-night stay in " ++ jsRender city ++
    " will be " ++ qual ++ " with temperatures ranging from " ++ toString avgLow ++
    "°F to " ++ toString avgHigh ++ "°F."

/-- The webhook request body.  Dates are epoch-day numbers; none models an
absent or falsy (empty) field. -/
structure Request where
  check_in_date : Option ℤ
  check_out_date : Option ℤ
  property_latitude : Option ℚ := none
  property_longitude : Option ℚ := none
  property_address : Option String := none
  property_city : Option String := none
  property_state : Option String := none
  property_zip_code : Option String := none
  property_name : Option String := none
  property_id : Option String := none

/-- Coordinate pair inside a geocoding result. -/
structure GeoLocation where
  lat : ℚ
  lng : ℚ

/-- The geometry sub-record of a geocoding result. -/
structure GeoGeometry where
  location : GeoLocation

/-- One candidate result of the geocoding lookup. -/
structure GeoResult where
  geometry : GeoGeometry

/-- The parsed body of the geocoding response. -/
structure GeocodeData where
  status : String
  results : List GeoResult

/-- Outcome of the forecast-provider HTTP call: transport ok flag and the
two places the daily list may sit in the parsed body
(`weatherData.daily` and `weatherData.forecast?.daily`). -/
structure WeatherHttp where
  ok : Bool
  daily : Option (List RawEntry) := none
  forecast_daily : Option (List RawEntry) := none

/-- The ambient world of one invocation: configured API key, what the
geocoding call would return, what the forecast call would return, and
todays date as an epoch day. -/
structure Env where
  apiKey : Option String
  geocode : GeocodeData
  weather : WeatherHttp
  today : ℤ

/-- The address string built for geocoding: full address, else city-state,
else city; with the zip code appended when present and not already
contained textually. -/
def buildAddress (req : Request) : String :=
  let base :=
    if strTruthy req.property_address then req.property_address.getD ""
    else if strTruthy req.property_city && strTruthy req.property_state then
      req.property_city.getD "" ++ ", " ++ req.property_state.getD ""
    else if strTruthy req.property_city then req.property_city.getD ""
    else ""
  if strTruthy req.property_zip_code && !strIncludes base (req.property_zip_code.getD "") then
    base ++ " " ++ req.property_zip_code.getD ""
  else base

/-- Coordinate resolution: pass through truthy latitude and longitude
without any network call; otherwise geocode the built address, treating an
empty address, a non-OK status or an empty result list as failure. -/
def resolveCoords (req : Request) (env : Env) : Option (ℚ × ℚ) :=
  if numTruthy req.property_latitude && numTruthy req.property_longitude then
    some (req.property_latitude.getD 0, req.property_longitude.getD 0)
  else
    let addressString := buildAddress req
    if addressString = "" then none
    else
      match env.geocode.results.head? with
      | none => none
      | some r =>
        if env.geocode.status = "OK" then some (r.geometry.location.lat, r.geometry.location.lng)
        else none

/-- The list the day loop scans: `weatherData.daily || weatherData.forecast?.daily || []`.
A present array is truthy in JS even when empty. -/
def allForecastsOf (w : WeatherHttp) : List RawEntry :=
  (w.daily.orElse fun _ => w.forecast_daily).getD []

/-- Per-response statistics block.  The fallback response carries only the
two dates, so every other field is optional. -/
structure Stats where
  check_in_date : Option ℤ
  check_out_date : Option ℤ
  days_until_checkin : Option ℤ := none
  number_of_nights : Option ℤ := none
  days_showing : Option ℤ := none
  avg_high : Option ℤ := none
  avg_low : Option ℤ := none
  max_high : Option ℤ := none
  min_low : Option ℤ := none
  avg_precipitation : Option ℤ := none
  rainy_days : Option ℕ := none
  has_rain : Option Bool := none
deriving DecidableEq

/-- The location block of a successful response. -/
structure LocationInfo where
  city : String
  state : String
  name : String
  id : Option String
deriving DecidableEq

/-- The JSON payload returned by the handler.  Fields absent from the
fallback shape are optional. -/
structure Response where
  success : Bool
  show_weather : Bool
  summary : String
  daily_forecasts : Option (List DailyForecast) := none
  packing_recommendations : List String
  stats : Stats
  location : Option LocationInfo := none
  fallback : Option Bool := none
deriving DecidableEq

/-- getFallbackWeather: the fixed-shape response used on every failure
path, a pure function of the two dates and the city. -/
def getFallbackWeather (checkInDate checkOutDate : Option ℤ) (city : Option String) : Response :=
  { success := false
    show_weather := false
    summary := "We hope you have wonderful weather during your stay" ++
      (if strTruthy city then " in " ++ city.getD "" else "") ++ "!"
    packing_recommendations :=
      ["Pack comfortable clothes", "Check local forecast before departure"]
    stats := { check_in_date := checkInDate, check_out_date := checkOutDate }
    fallback := some true }

/-- The successful response assembled from the nonempty normalized list. -/
def successResponse (req : Request) (env : Env) (ci co nights daysToShow : ℤ)
    (dfs : List DailyForecast) : Response :=
  let tempHighs : List ℤ := dfs.map fun d => d.temp_high
  let tempLows : List ℤ := dfs.map fun d => d.temp_low
  let precipChances : List ℤ := dfs.map fun d => d.precipitation_chance
  let avgHigh := jsRound ((tempHighs.sum : ℚ) / (tempHighs.length : ℚ))
  let avgLow := jsRound ((tempLows.sum : ℚ) / (tempLows.length : ℚ))
  let maxHigh := tempHighs.max?.getD 0
  let minLow := tempLows.min?.getD 0
  let avgPrecip := jsRound ((precipChances.sum : ℚ) / (precipChances.length : ℚ))
  let rainy := rainyDays dfs
  { success := true
    show_weather := true
    summary := generateSummary dfs avgHigh avgLow avgPrecip nights req.property_city
    daily_forecasts := some dfs
    packing_recommendations := generatePackingList maxHigh minLow avgPrecip dfs
    stats := { check_in_date := some ci
               check_out_date := some co
               days_until_checkin := some (ci - env.today)
               number_of_nights := some nights
               days_showing := some daysToShow
               avg_high := some avgHigh
               avg_low := some avgLow
               max_high := some maxHigh
               min_low := some minLow
               avg_precipitation := some avgPrecip
               rainy_days := some rainy
               has_rain := some (decide (rainy > 0)) }
    location := some { city := jsOrStr req.property_city "your destination"
                       state := jsOrStr req.property_state ""
                       name := jsOrStr req.property_name ""
                       id := req.property_id }
    fallback := none }

/-- The request handler for POST requests, following the source order:
missing API key, then missing dates, then unresolvable coordinates, then a
failed forecast call, then an empty normalized list all divert to the
fallback; otherwise the successful response is assembled. -/
def handler (req : Request) (env : Env) : Response :=
  if strTruthy env.apiKey then
    match req.check_in_date, req.check_out_date with
    | some ci, some co =>
      match resolveCoords req env with
      | none => getFallbackWeather req.check_in_date req.check_out_date req.property_city
      | some _ =>
        let nights := co - ci
        let daysToShow := min nights 7
        if env.weather.ok then
          let dfs := buildDailyForecasts ci daysToShow (allForecastsOf env.weather)
          if dfs.length = 0 then
            getFallbackWeather req.check_in_date req.check_out_date req.property_city
          else successResponse req env ci co nights daysToShow dfs
        else getFallbackWeather req.check_in_date req.check_out_date req.property_city
    | _, _ => getFallbackWeather req.check_in_date req.check_out_date req.property_city
  else getFallbackWeather req.check_in_date req.check_out_date req.property_city

lemma jsRound_eq (q : ℚ) : jsRound q = ⌊q + 1/2⌋ := by
  rw [jsRound, Rat.floor_def', Rat.floor_def]

lemma jsRound_mono {p q : ℚ} (h : p ≤ q) : jsRound p ≤ jsRound q := by
  rw [jsRound_eq, jsRound_eq]
  exact Int.floor_le_floor (by linarith)

lemma jsRound_nonneg {q : ℚ} (h : 0 ≤ q) : 0 ≤ jsRound q := by
  rw [jsRound_eq]
  exact Int.le_floor.2 (by push_cast; linarith)

lemma jsRound_le_of_le {q : ℚ} {n : ℤ} (h : q ≤ n) : jsRound q ≤ n := by
  rw [jsRound_eq]
  have : ⌊q + 1/2⌋ < n + 1 := Int.floor_lt.2 (by push_cast; linarith)
  omega

lemma jsDedupAux_mem : ∀ (l seen : List String) (a : String),
    a ∈ jsDedupAux seen l → a ∈ l ∧ a ∉ seen := by
  intro l
  induction l with
  | nil => intro seen a h; simp [jsDedupAux] at h
  | cons x xs ih =>
    intro seen a h
    simp only [jsDedupAux] at h
    by_cases hx : x ∈ seen
    · rw [if_pos hx] at h
      obtain ⟨h1, h2⟩ := ih seen a h
      exact ⟨List.mem_cons_of_mem _ h1, h2⟩
    · rw [if_neg hx] at h
      rcases List.mem_cons.1 h with rfl | h2
      · exact ⟨List.mem_cons_self _ _, hx⟩
      · obtain ⟨h1, h2⟩ := ih _ a h2
        exact ⟨List.mem_cons_of_mem _ h1, fun hs => h2 (List.mem_cons_of_mem _ hs)⟩

lemma jsDedupAux_nodup : ∀ (l seen : List String), (jsDedupAux seen l).Nodup := by
  intro l
  induction l with
  | nil => intro seen; simp [jsDedupAux]
  | cons x xs ih =>
    intro seen
    simp only [jsDedupAux]
    by_cases hx : x ∈ seen
    · rw [if_pos hx]; exact ih seen
    · rw [if_neg hx]
      refine List.nodup_cons.2 ⟨fun hmem => ?_, ih _⟩
      exact (jsDedupAux_mem xs (x :: seen) x hmem).2 (List.mem_cons_self _ _)

lemma jsDedupAux_sublist : ∀ (l seen : List String), (jsDedupAux seen l).Sublist l := by
  intro l
  induction l with
  | nil => intro seen; simp [jsDedupAux]
  | cons x xs ih =>
    intro seen
    simp only [jsDedupAux]
    by_cases hx : x ∈ seen
    · rw [if_pos hx]; exact (ih seen).cons _
    · rw [if_neg hx]; exact (ih _).cons₂ _

lemma jsDedupAux_mem_of : ∀ (l seen : List String) (a : String),
    a ∈ l → a ∉ seen → a ∈ jsDedupAux seen l := by
  intro l
  induction l with
  | nil => intro seen a h; simp at h
  | cons x xs ih =>
    intro seen a h hs
    simp only [jsDedupAux]
    by_cases hx : x ∈ seen
    · rw [if_pos hx]
      rcases List.mem_cons.1 h with rfl | h2
      · exact absurd hx hs
      · exact ih seen a h2 hs
    · rw [if_neg hx]
      rcases List.mem_cons.1 h with rfl | h2
      · exact List.mem_cons_self _ _
      · by_cases hax : a = x
        · subst hax; exact List.mem_cons_self _ _
        · refine List.mem_cons_of_mem _ (ih _ a h2 ?_)
          simp only [List.mem_cons]
          rintro (rfl | hmem)
          · exact hax rfl
          · exact hs hmem

lemma jsDedup_nodup (l : List String) : (jsDedup l).Nodup := jsDedupAux_nodup l []

lemma jsDedup_sublist (l : List String) : (jsDedup l).Sublist l := jsDedupAux_sublist l []

lemma jsDedup_mem_iff (l : List String) (a : String) : a ∈ jsDedup l ↔ a ∈ l :=
  ⟨fun h => (jsDedupAux_mem l [] a h).1, fun h => jsDedupAux_mem_of l [] a h (by simp)⟩

lemma containsSub_iff (pat : List Char) : ∀ l : List Char, containsSub pat l = true ↔ pat <:+: l := by
  intro l
  induction l with
  | nil =>
    simp only [containsSub, List.isEmpty_iff, List.infix_nil]
  | cons c t ih =>
    simp only [containsSub, Bool.or_eq_true, List.infix_cons_iff, ih,
      List.isPrefixOf_iff_prefix]

lemma strIncludes_of_infix {s p q : String} (h1 : strIncludes s q = true)
    (h2 : p.toList <:+: q.toList) : strIncludes s p = true := by
  rw [strIncludes, containsSub_iff] at h1 ⊢
  exact h2.trans h1

/-- A normalized day record with a given precipitation chance, otherwise bland. -/
def dayWithPrecip (pc : ℤ) : DailyForecast :=
  { date := "1970-01-01", day_name := "Thursday", day_short := "Thu", month_day := "Jan 1"
    is_checkin := true, is_checkout := true, temp_high := 75, temp_low := 60
    condition := "Partly Cloudy", condition_simple := "Partly Cloudy"
    precipitation_chance := pc, icon_url := "" }

/-- A request with truthy coordinates, a three-night stay starting at epoch
day 0, and a city name. -/
def exReq : Request :=
  { check_in_date := some 0, check_out_date := some 3
    property_latitude := some 10, property_longitude := some 20
    property_city := some "Austin" }

/-- An environment with a configured key and a successful forecast call
returning the given entries. -/
def exEnv (entries : List RawEntry) : Env :=
  { apiKey := some "k"
    geocode := { status := "OK", results := [] }
    weather := { ok := true, daily := some entries }
    today := 0 }

/-- A raw entry for a given epoch day with the given temperature and
precipitation records. -/
def entryAt (d : ℤ) (t : Option TempRec) (p : Option PrecipRec) : RawEntry :=
  { date := some d, time := none, temperature := t, temp := none
    condition := none, weather0 := none, precipitation := p, rain := none }

/-- A raw temperature record whose low exceeds its high. -/
def invertedTemps : TempRec := { high := some 50, low := some 70, max := none, min := none }

/-- A precipitation record whose probability field carries 2, outside the
0 to 1 scale the conversion assumes. -/
def doubleProb : PrecipRec := { probability := some 2, chance := none }

/-- An environment with no configured API key. -/
def emptyEnv : Env :=
  { apiKey := none
    geocode := { status := "", results := [] }
    weather := { ok := false }
    today := 0 }

/-- C5: the rainy-day count is the number of normalized days whose
precipitation chance strictly exceeds 40, over every list of days; a day
at exactly 40 is not counted and a day at 41 is. -/
theorem rainyDays_spec :
    (∀ dfs : List DailyForecast,
      rainyDays dfs = dfs.countP fun d => decide (40 < d.precipitation_chance)) ∧
    rainyDays [dayWithPrecip 40] = 0 ∧ rainyDays [dayWithPrecip 41] = 1 := by
  refine ⟨fun dfs => ?_, by decide, by decide⟩
  rw [rainyDays, List.countP_eq_length_filter]

/-- C6: the packing list is the first-seen-order deduplication of the
accumulated candidate items truncated to five, so it has at most five
elements and no duplicates; the deduplication is order preserving (a
sublist of the candidates) and keeps exactly the candidate elements. -/
theorem generatePackingList_spec :
    ∀ (maxHigh minLow avgPrecip : ℤ) (forecasts : List DailyForecast),
      (generatePackingList maxHigh minLow avgPrecip forecasts).length ≤ 5 ∧
      (generatePackingList maxHigh minLow avgPrecip forecasts).Nodup ∧
      generatePackingList maxHigh minLow avgPrecip forecasts =
        (jsDedup (packingItems maxHigh minLow avgPrecip forecasts)).take 5 ∧
      (jsDedup (packingItems maxHigh minLow avgPrecip forecasts)).Sublist
        (packingItems maxHigh minLow avgPrecip forecasts) ∧
      ∀ a, a ∈ jsDedup (packingItems maxHigh minLow avgPrecip forecasts) ↔
        a ∈ packingItems maxHigh minLow avgPrecip forecasts := by
  intro mh ml ap fs
  refine ⟨?_, ?_, rfl, jsDedup_sublist _, jsDedup_mem_iff _⟩
  · rw [generatePackingList, List.length_take]
    exact min_le_left _ _
  · rw [generatePackingList]
    exact (List.take_sublist _ _).nodup (jsDedup_nodup _)

/-- C7: a request with no check-in date is answered by the fallback
response, with success and show_weather both false; the handler is a total
function, so the missing field is a normal outcome and no exception
escapes. -/
theorem handler_missing_checkin :
    ∀ (req : Request) (env : Env), req.check_in_date = none →
      handler req env =
        getFallbackWeather req.check_in_date req.check_out_date req.property_city ∧
      (handler req env).success = false ∧ (handler req env).show_weather = false := by
  intro req env h
  have hh : handler req env =
      getFallbackWeather req.check_in_date req.check_out_date req.property_city := by
    rw [handler]
    by_cases hk : strTruthy env.apiKey
    · simp only [if_pos hk, h]
    · simp only [if_neg hk]
  exact ⟨hh, by rw [hh]; rfl, by rw [hh]; rfl⟩

/-- Witness for C7 at a concrete request with an absent check-in date. -/
theorem handler_missing_checkin_witness :
    handler { check_in_date := none, check_out_date := some 3 } emptyEnv =
      getFallbackWeather none (some 3) none ∧
    (handler { check_in_date := none, check_out_date := some 3 } emptyEnv).success = false ∧
    (handler { check_in_date := none, check_out_date := some 3 } emptyEnv).show_weather =
      false :=
  handler_missing_checkin { check_in_date := none, check_out_date := some 3 } emptyEnv rfl

/-- C8: the fallback builder is a pure total function of the dates and
city: success and show_weather are false, the summary is the fixed
reassuring sentence, the packing list has exactly the two generic items,
the fallback marker is set, no daily_forecasts field is present, and the
stats block carries only the two dates. -/
theorem getFallbackWeather_spec :
    ∀ (ci co : Option ℤ) (city : Option String),
      (getFallbackWeather ci co city).success = false ∧
      (getFallbackWeather ci co city).show_weather = false ∧
      (getFallbackWeather ci co city).packing_recommendations =
        ["Pack comfortable clothes", "Check local forecast before departure"] ∧
      (getFallbackWeather ci co city).packing_recommendations.length = 2 ∧
      (getFallbackWeather ci co city).fallback = some true ∧
      (getFallbackWeather ci co city).daily_forecasts = none ∧
      (getFallbackWeather ci co city).summary =
        "We hope you have wonderful weather during your stay" ++
          (if strTruthy city then " in " ++ city.getD "" else "") ++ "!" ∧
      (getFallbackWeather ci co city).stats =
        { check_in_date := ci, check_out_date := co } := by
  intro ci co city
  exact ⟨rfl, rfl, rfl, rfl, rfl, rfl, rfl, rfl⟩

/-- C9: in every alias-tolerant numeric lookup a present value 0 is
indistinguishable from an absent field, because JS reads the fields with
the falsy-coalescing or operator: replacing a 0 by an absent field leaves
the resolved high, low and precipitation chance unchanged, and when every
alias is 0 or absent the fixed defaults 75, 60 and 0 come out. -/
theorem zero_field_defaults :
    (∀ t : TempRec, resolveHighR { t with high := some 0 } =
      resolveHighR { t with high := none }) ∧
    (∀ t : TempRec, resolveHighR { t with max := some 0 } =
      resolveHighR { t with max := none }) ∧
    (∀ t : TempRec, resolveLowR { t with low := some 0 } =
      resolveLowR { t with low := none }) ∧
    (∀ t : TempRec, resolveLowR { t with min := some 0 } =
      resolveLowR { t with min := none }) ∧
    (∀ p : PrecipRec, resolvePrecipR { p with probability := some 0 } =
      resolvePrecipR { p with probability := none }) ∧
    (∀ p : PrecipRec, resolvePrecipR { p with chance := some 0 } =
      resolvePrecipR { p with chance := none }) ∧
    resolveHighR { high := some 0, low := some 0, max := some 0, min := some 0 } = 75 ∧
    resolveLowR { high := some 0, low := some 0, max := some 0, min := some 0 } = 60 ∧
    resolvePrecipR { probability := some 0, chance := some 0 } = 0 ∧
    resolveHighR TempRec.empty = 75 ∧ resolveLowR TempRec.empty = 60 ∧
    resolvePrecipR PrecipRec.empty = 0 := by
  refine ⟨fun t => ?_, fun t => ?_, fun t => ?_, fun t => ?_, fun p => ?_, fun p => ?_,
    by with_unfolding_all decide, by with_unfolding_all decide, by with_unfolding_all decide,
    by with_unfolding_all decide, by with_unfolding_all decide,
    by with_unfolding_all decide⟩ <;>
  simp [resolveHighR, resolveLowR, resolvePrecipR, effHighR, effLowR, effPrecipR, jsOrNum]

/-- C2 counterexample: a successful run whose raw entry carries high 50 and
low 70 produces a daily forecast with temp_low 70 above temp_high 50, so
the invariant does not hold for all raw forecast inputs. -/
theorem temp_inversion_counterexample :
    (handler exReq (exEnv [entryAt 0 (some invertedTemps) none])).success = true ∧
    ((handler exReq (exEnv [entryAt 0 (some invertedTemps) none])).daily_forecasts.getD
        []).map (fun d => (d.temp_high, d.temp_low)) = [(50, 70)] ∧
    ¬((70 : ℤ) ≤ 50) := by
  refine ⟨by with_unfolding_all decide, by with_unfolding_all decide, by decide⟩

/-- C2 amended: a day record built from a raw entry satisfies
temp_low ≤ temp_high whenever the effective raw low (first truthy of low
and min, else 60) does not exceed the effective raw high (first truthy of
high and max, else 75); rounding preserves the order. -/
theorem temp_low_le_high :
    ∀ (i : ℕ) (daysToShow currentDate : ℤ) (e : RawEntry),
      effLowR (tempRecOf e) ≤ effHighR (tempRecOf e) →
      (mkDailyForecast i daysToShow currentDate e).temp_low ≤
        (mkDailyForecast i daysToShow currentDate e).temp_high := by
  intro i ds cd e h
  show resolveTempLow e ≤ resolveTempHigh e
  rw [resolveTempLow, resolveTempHigh, resolveLowR, resolveHighR]
  exact jsRound_mono h

/-- Witness for C2 amended at an entry with absent temperature fields,
where the defaults 60 and 75 are ordered. -/
theorem temp_low_le_high_witness :
    (mkDailyForecast 0 3 0 (entryAt 0 none none)).temp_low ≤
      (mkDailyForecast 0 3 0 (entryAt 0 none none)).temp_high :=
  temp_low_le_high 0 3 0 (entryAt 0 none none) (by with_unfolding_all decide)

/-- C3 counterexample: a raw probability of 2 is converted to a
precipitation chance of 200, outside the 0 to 100 range. -/
theorem precip_out_of_range :
    resolvePrecipChance (entryAt 0 none (some doubleProb)) = 200 ∧ ¬((200 : ℤ) ≤ 100) := by
  refine ⟨by with_unfolding_all decide, by decide⟩

/-- C3 amended: the precipitation chance is the rounding of probability
times 100 and lies in 0..100 whenever the effective raw probability (first
truthy of probability and chance, else 0) lies in the 0..1 scale the
conversion assumes. -/
theorem precip_chance_in_range :
    ∀ e : RawEntry, 0 ≤ effPrecipR (precipRecOf e) → effPrecipR (precipRecOf e) ≤ 1 →
      0 ≤ resolvePrecipChance e ∧ resolvePrecipChance e ≤ 100 := by
  intro e h0 h1
  rw [resolvePrecipChance, resolvePrecipR]
  constructor
  · exact jsRound_nonneg (by positivity)
  · exact jsRound_le_of_le (by push_cast; linarith)

/-- Witness for C3 amended at an entry whose probability is one half,
giving a chance of 50. -/
theorem precip_chance_in_range_witness :
    0 ≤ resolvePrecipChance (entryAt 0 none (some { probability := some (1/2), chance := none }))
      ∧ resolvePrecipChance
        (entryAt 0 none (some { probability := some (1/2), chance := none })) ≤ 100 :=
  precip_chance_in_range (entryAt 0 none (some { probability := some (1/2), chance := none }))
    (by with_unfolding_all decide) (by with_unfolding_all decide)

/-- C4 counterexample: a text containing thunderstorm together with rain is
categorized Rainy, not Stormy, because the rain rule is checked first. -/
theorem thunderstorm_with_rain :
    strIncludes (lowerStr "thunderstorm with rain") "thunderstorm" = true ∧
    simplifyCondition "thunderstorm with rain" = "Rainy" ∧ "Rainy" ≠ "Stormy" := by
  refine ⟨by decide, by decide, by decide⟩

/-- C4 amended: any text containing thunderstorm and none of the
earlier-checked rain, drizzle, shower, snow, sleet and ice keywords maps to
Stormy; the exact text light rain maps to Rainy; text with none of the
table keywords maps to Partly Cloudy; matching is case-insensitive against
the fixed ordered table and any text containing rain is Rainy regardless
of later keywords, so the rain group wins over cloud and partly terms. -/
theorem simplifyCondition_keyword_table :
    (∀ s : String, strIncludes (lowerStr s) "thunderstorm" = true →
      strIncludes (lowerStr s) "rain" = false → strIncludes (lowerStr s) "drizzle" = false →
      strIncludes (lowerStr s) "shower" = false → strIncludes (lowerStr s) "snow" = false →
      strIncludes (lowerStr s) "sleet" = false → strIncludes (lowerStr s) "ice" = false →
      simplifyCondition s = "Stormy") ∧
    simplifyCondition "light rain" = "Rainy" ∧
    (∀ s : String,
      (∀ k ∈ ["rain", "drizzle", "shower", "snow", "sleet", "ice", "thunder", "storm",
        "cloud", "overcast", "clear", "sunny", "partly", "mostly", "fog", "mist", "haze"],
        strIncludes (lowerStr s) k = false) →
      simplifyCondition s = "Partly Cloudy") ∧
    (∀ s : String, strIncludes (lowerStr s) "rain" = true →
      simplifyCondition s = "Rainy") := by
  refine ⟨?_, by decide, ?_, ?_⟩
  · intro s hts h1 h2 h3 h4 h5 h6
    have hth : strIncludes (lowerStr s) "thunder" = true :=
      strIncludes_of_infix hts (by decide)
    simp [simplifyCondition, h1, h2, h3, h4, h5, h6, hth]
  · intro s hall
    simp [simplifyCondition, hall "rain" (by simp), hall "drizzle" (by simp),
      hall "shower" (by simp), hall "snow" (by simp), hall "sleet" (by simp),
      hall "ice" (by simp), hall "thunder" (by simp), hall "storm" (by simp),
      hall "cloud" (by simp), hall "overcast" (by simp), hall "clear" (by simp),
      hall "sunny" (by simp), hall "partly" (by simp), hall "mostly" (by simp),
      hall "fog" (by simp), hall "mist" (by simp), hall "haze" (by simp)]
  · intro s h
    simp [simplifyCondition, h]

/-- Witness for C4 amended at the texts thunderstorm, light rain, a
keyword-free text and a rain text. -/
theorem simplifyCondition_keyword_table_witness :
    simplifyCondition "thunderstorm" = "Stormy" ∧
    simplifyCondition "light rain" = "Rainy" ∧
    simplifyCondition "dust devil" = "Partly Cloudy" ∧
    simplifyCondition "rain near cloud" = "Rainy" :=
  ⟨simplifyCondition_keyword_table.1 "thunderstorm" (by decide) (by decide) (by decide)
      (by decide) (by decide) (by decide) (by decide),
    simplifyCondition_keyword_table.2.1,
    simplifyCondition_keyword_table.2.2.1 "dust devil" (by decide),
    simplifyCondition_keyword_table.2.2.2 "rain near cloud" (by decide)⟩

/-- C10 counterexample: a text containing cloud together with rain is
categorized Rainy, not Cloudy, because the rain group is checked first. -/
theorem cloud_with_rain :
    strIncludes (lowerStr "cloudy with rain") "cloud" = true ∧
    simplifyCondition "cloudy with rain" = "Rainy" ∧ "Rainy" ≠ "Cloudy" := by
  refine ⟨by decide, by decide, by decide⟩

/-- C10 amended: any text containing cloud and none of the earlier-checked
rain, snow and storm group keywords is Cloudy even when it also contains
partly; in particular the default display text Partly Cloudy is
categorized Cloudy; and the Partly Cloudy category is reachable only from
text without cloud, either via partly or mostly or via text matching no
keyword of the table at all. -/
theorem simplifyCondition_cloud_priority :
    (∀ s : String, strIncludes (lowerStr s) "cloud" = true →
      strIncludes (lowerStr s) "rain" = false → strIncludes (lowerStr s) "drizzle" = false →
      strIncludes (lowerStr s) "shower" = false → strIncludes (lowerStr s) "snow" = false →
      strIncludes (lowerStr s) "sleet" = false → strIncludes (lowerStr s) "ice" = false →
      strIncludes (lowerStr s) "thunder" = false → strIncludes (lowerStr s) "storm" = false →
      simplifyCondition s = "Cloudy") ∧
    simplifyCondition "Partly Cloudy" = "Cloudy" ∧
    (∀ s : String, simplifyCondition s = "Partly Cloudy" →
      strIncludes (lowerStr s) "cloud" = false ∧
      ((strIncludes (lowerStr s) "partly" = true ∨ strIncludes (lowerStr s) "mostly" = true) ∨
        (∀ k ∈ ["rain", "drizzle", "shower", "snow", "sleet", "ice", "thunder", "storm",
          "cloud", "overcast", "clear", "sunny", "partly", "mostly", "fog", "mist", "haze"],
          strIncludes (lowerStr s) k = false))) := by
  refine ⟨?_, by decide, ?_⟩
  · intro s hc h1 h2 h3 h4 h5 h6 h7 h8
    simp [simplifyCondition, hc, h1, h2, h3, h4, h5, h6, h7, h8]
  · intro s h
    simp only [simplifyCondition] at h
    cases ha1 : strIncludes (lowerStr s) "rain" <;> rw [ha1] at h
    case true => simp at h
    cases ha2 : strIncludes (lowerStr s) "drizzle" <;> rw [ha2] at h
    case true => simp at h
    cases ha3 : strIncludes (lowerStr s) "shower" <;> rw [ha3] at h
    case true => simp at h
    cases ha4 : strIncludes (lowerStr s) "snow" <;> rw [ha4] at h
    case true => simp at h
    cases ha5 : strIncludes (lowerStr s) "sleet" <;> rw [ha5] at h
    case true => simp at h
    cases ha6 : strIncludes (lowerStr s) "ice" <;> rw [ha6] at h
    case true => simp at h
    cases ha7 : strIncludes (lowerStr s) "thunder" <;> rw [ha7] at h
    case true => simp at h
    cases ha8 : strIncludes (lowerStr s) "storm" <;> rw [ha8] at h
    case true => simp at h
    cases ha9 : strIncludes (lowerStr s) "cloud" <;> rw [ha9] at h
    case true => simp at h
    cases ha10 : strIncludes (lowerStr s) "overcast" <;> rw [ha10] at h
    case true => simp at h
    cases ha11 : strIncludes (lowerStr s) "clear" <;> rw [ha11] at h
    case true => simp at h
    cases ha12 : strIncludes (lowerStr s) "sunny" <;> rw [ha12] at h
    case true => simp at h
    refine ⟨rfl, ?_⟩
    cases ha13 : strIncludes (lowerStr s) "partly"
    · cases ha14 : strIncludes (lowerStr s) "mostly"
      · rw [ha13, ha14] at h
        cases ha15 : strIncludes (lowerStr s) "fog" <;> rw [ha15] at h
        case true => simp at h
        cases ha16 : strIncludes (lowerStr s) "mist" <;> rw [ha16] at h
        case true => simp at h
        cases ha17 : strIncludes (lowerStr s) "haze" <;> rw [ha17] at h
        case true => simp at h
        refine Or.inr ?_
        intro k hk
        simp only [List.mem_cons, List.not_mem_nil, or_false] at hk
        rcases hk with rfl|rfl|rfl|rfl|rfl|rfl|rfl|rfl|rfl|rfl|rfl|rfl|rfl|rfl|rfl|rfl|rfl <;>
          assumption
      · exact Or.inl (Or.inr rfl)
    · exact Or.inl (Or.inl rfl)

/-- Witness for C10 amended at the texts partly cloudy skies and mostly dry. -/
theorem simplifyCondition_cloud_priority_witness :
    simplifyCondition "partly cloudy skies" = "Cloudy" ∧
    (strIncludes (lowerStr "mostly dry") "cloud" = false ∧
      ((strIncludes (lowerStr "mostly dry") "partly" = true ∨
        strIncludes (lowerStr "mostly dry") "mostly" = true) ∨
        (∀ k ∈ ["rain", "drizzle", "shower", "snow", "sleet", "ice", "thunder", "storm",
          "cloud", "overcast", "clear", "sunny", "partly", "mostly", "fog", "mist", "haze"],
          strIncludes (lowerStr "mostly dry") k = false))) :=
  ⟨simplifyCondition_cloud_priority.1 "partly cloudy skies" (by decide) (by decide) (by decide)
      (by decide) (by decide) (by decide) (by decide) (by decide) (by decide),
    simplifyCondition_cloud_priority.2.2 "mostly dry" (by decide)⟩

/-- C1 counterexample: a three-night request with valid coordinates and a
successful fetch matching only the first day succeeds with one daily
forecast, not min(nights, 7) = 3; unmatched days are omitted. -/
theorem partial_match_counterexample :
    (handler exReq (exEnv [entryAt 0 none none])).success = true ∧
    ((handler exReq (exEnv [entryAt 0 none none])).daily_forecasts.getD []).length = 1 ∧
    min ((3 : ℤ) - 0) 7 = 3 ∧ (1 : ℕ) ≠ 3 := by
  refine ⟨by with_unfolding_all decide, by with_unfolding_all decide, by decide, by decide⟩

/-- C1 amended: with a configured key, both dates, truthy coordinates, a
successful fetch and at least one matched day, the response has
success true and daily_forecasts is exactly the list of matched days,
whose length is at most min(nights, 7); it equals min(nights, 7) only when
every day of the window matches. -/
theorem handler_success_length :
    ∀ (req : Request) (env : Env) (ci co : ℤ),
      strTruthy env.apiKey = true →
      req.check_in_date = some ci → req.check_out_date = some co →
      numTruthy req.property_latitude = true → numTruthy req.property_longitude = true →
      env.weather.ok = true →
      buildDailyForecasts ci (min (co - ci) 7) (allForecastsOf env.weather) ≠ [] →
      (handler req env).success = true ∧
      (handler req env).daily_forecasts =
        some (buildDailyForecasts ci (min (co - ci) 7) (allForecastsOf env.weather)) ∧
      (buildDailyForecasts ci (min (co - ci) 7) (allForecastsOf env.weather)).length ≤
        (min (co - ci) 7).toNat := by
  intro req env ci co hk hci hco hlat hlng hok hne
  have hres : resolveCoords req env =
      some (req.property_latitude.getD 0, req.property_longitude.getD 0) := by
    rw [resolveCoords, if_pos]
    rw [hlat, hlng]
    exact rfl
  have hlen :
      ¬(buildDailyForecasts ci (min (co - ci) 7) (allForecastsOf env.weather)).length = 0 := by
    simpa [List.length_eq_zero] using hne
  have hred : handler req env = successResponse req env ci co (co - ci) (min (co - ci) 7)
      (buildDailyForecasts ci (min (co - ci) 7) (allForecastsOf env.weather)) := by
    rw [handler, if_pos hk, hci, hco]
    simp only [hres, hok, if_true, hlen, if_false]
  refine ⟨by rw [hred]; rfl, by rw [hred]; rfl, ?_⟩
  calc (buildDailyForecasts ci (min (co - ci) 7) (allForecastsOf env.weather)).length
      ≤ (List.range (min (co - ci) 7).toNat).length := List.length_filterMap_le _ _
    _ = (min (co - ci) 7).toNat := List.length_range _

/-- Witness for C1 amended: a two-night request whose two window days both
match gives two daily forecasts, within the bound. -/
theorem handler_success_length_witness :
    (handler { exReq with check_out_date := some 2 }
      (exEnv [entryAt 0 none none, entryAt 1 none none])).success = true ∧
    (handler { exReq with check_out_date := some 2 }
      (exEnv [entryAt 0 none none, entryAt 1 none none])).daily_forecasts =
      some (buildDailyForecasts 0 (min ((2 : ℤ) - 0) 7)
        (allForecastsOf (exEnv [entryAt 0 none none, entryAt 1 none none]).weather)) ∧
    (buildDailyForecasts 0 (min ((2 : ℤ) - 0) 7)
      (allForecastsOf (exEnv [entryAt 0 none none, entryAt 1 none none]).weather)).length ≤
      (min ((2 : ℤ) - 0) 7).toNat :=
  handler_success_length { exReq with check_out_date := some 2 }
    (exEnv [entryAt 0 none none, entryAt 1 none none]) 0 2
    (by decide) rfl rfl (by with_unfolding_all decide) (by with_unfolding_all decide) rfl
    (by with_unfolding_all decide)

end Weather
